import Mathlib

/-
Verification of the apigrate/tdameritrade connector (src/index.js).

The development shallowly embeds the connector: JavaScript objects holding the
parsed JSON bodies become the structure `JsonBody`, the mutable fields of the
`TDAConnector` instance become the structure `Conn`, and the effectful parts
(the `fetch` transport, the `token` event emitter, `console.error`, the
credential initializer) become explicit state threaded through a `World`
structure.  The HTTP transport is modelled by a script of outcomes consumed in
order, one per dispatched request.  JavaScript exceptions become the `Except`
error channel, and the (in general unbounded) recursion of `doFetch` is made
structural with an explicit fuel parameter.
-/

/-- Model of a parsed JSON response body.  The connector only ever reads the
`access_token` and `refresh_token` fields of a parsed body, and serializes the
whole body with `JSON.stringify`; the `raw` field carries that serialization.
A field value of `none` models a JavaScript-falsy field (absent, null or
undefined). -/
structure JsonBody where
  access_token : Option String
  refresh_token : Option String
  raw : String
deriving DecidableEq

/-- JavaScript truthiness of a string-valued field: absent/null/undefined and
the empty string are falsy, every other string is truthy. -/
def truthy : Option String → Bool
  | none => false
  | some s => !(s == "")

/-- JavaScript string coercion of a possibly-null string (template literals and
`encodeURIComponent` coerce `null` to the string "null"). -/
def jsToString : Option String → String
  | none => "null"
  | some s => s

/-- Upper-case hexadecimal digit, as produced by `encodeURIComponent`. -/
def hexDigit (n : Nat) : Char :=
  if n < 10 then Char.ofNat (48 + n) else Char.ofNat (55 + n)

/-- Characters `encodeURIComponent` leaves unescaped: letters, digits and
`- _ . ! ~ * ' ( )`. -/
def isUriUnreserved (c : Char) : Bool :=
  c.isAlphanum || c = '-' || c = '_' || c = '.' || c = '!' || c = '~' ||
    c = '*' || c = Char.ofNat 39 || c = '(' || c = ')'

/-- Percent-encoding of one character (ASCII model; multi-byte UTF-8 escapes
are not needed by the connector inputs considered here). -/
def percentEncode (c : Char) : String :=
  String.mk ['%', hexDigit (c.toNat / 16 % 16), hexDigit (c.toNat % 16)]

/-- Model of the JavaScript `encodeURIComponent` builtin. -/
def encodeURIComponent (s : String) : String :=
  String.mk (List.flatten (s.toList.map
    (fun c => if isUriUnreserved c then [c] else (percentEncode c).toList)))

/-- Model of `JSON.stringify` applied to a string payload (quoting; escape
sequences inside the string are elided, no connector input needs them). -/
def jsStringifyString (s : String) : String := "\"" ++ s ++ "\""

/-- Insertion into a key-sorted association list, for the `query-string`
`stringify` model. -/
def insertSorted (kv : String × String) :
    List (String × String) → List (String × String)
  | [] => [kv]
  | x :: xs => if kv.1 ≤ x.1 then kv :: x :: xs else x :: insertSorted kv xs

/-- Key-sort of an association list (the `query-string` library sorts keys). -/
def sortByKey : List (String × String) → List (String × String)
  | [] => []
  | x :: xs => insertSorted x (sortByKey xs)

/-- Model of `qs.stringify`: key-sorted, URI-encoded `k=v` pairs joined by
ampersands. -/
def qsStringify (q : List (String × String)) : String :=
  String.intercalate "&" ((sortByKey q).map
    (fun kv => encodeURIComponent kv.1 ++ "=" ++ encodeURIComponent kv.2))

/-- The mutable fields of a `TDAConnector` instance (src/index.js lines
30-38).  The credential initializer callback is modelled by the value it
resolves to: `none` means no callback was supplied; `some none` means the
callback resolves to null/undefined; `some (some creds)` means it resolves to
the credential object `creds`. -/
structure Conn where
  client_id : String
  redirect_uri : String
  access_token : Option String
  refresh_token : Option String
  credentialInitializer : Option (Option JsonBody)
  base_url : String
deriving DecidableEq

/-- The `TDAConnector` constructor (src/index.js lines 30-38). -/
def mkConn (client_id redirect_uri : String)
    (credentialInitializer : Option (Option JsonBody)) : Conn :=
  { client_id := client_id
    redirect_uri := redirect_uri
    access_token := none
    refresh_token := none
    credentialInitializer := credentialInitializer
    base_url := "https://api.tdameritrade.com/v1" }

/-- `TDAConnector.setCredentials` (src/index.js lines 104-113): each of the
two token fields is overwritten exactly when the corresponding field of the
argument is truthy; a falsy argument leaves the state unchanged. -/
def setCredentials (conn : Conn) (creds : Option JsonBody) : Conn :=
  match creds with
  | none => conn
  | some c =>
    { conn with
      access_token := if truthy c.access_token
        then c.access_token else conn.access_token
      refresh_token := if truthy c.refresh_token
        then c.refresh_token else conn.refresh_token }

/-- An HTTP response: status code plus parsed JSON body (the connector always
parses the body with `response.json()` before classifying). -/
structure Response where
  status : Nat
  body : JsonBody
deriving DecidableEq

/-- The errors a connector call can raise.  `apiAuth` models `ApiAuthError`,
`typeError` the TypeError raised by reading a property off null/undefined,
`netError` a transport-level rejection, `refError` the ReferenceError from the
unbound `err` in `handleNotOk`, and `outOfFuel` is the artifact of bounding
the recursion (never produced when enough fuel is supplied). -/
inductive JsErr where
  | apiAuth (msg : String)
  | typeError (msg : String)
  | netError (msg : String)
  | refError (msg : String)
  | outOfFuel
deriving DecidableEq

/-- The message text of an error, as `console.error` would record it. -/
def errMessage : JsErr → String
  | .apiAuth m => m
  | .typeError m => m
  | .netError m => m
  | .refError m => m
  | .outOfFuel => "out of fuel"

/-- One scripted outcome of the `fetch` transport: either an HTTP response or
a transport-level rejection. -/
inductive FetchOutcome where
  | ok (r : Response)
  | netErr (msg : String)
deriving DecidableEq

/-- Record of one dispatched request: the data the model hands to `fetch`. -/
structure FetchRec where
  method : String
  url : String
  headers : List (String × String)
  body : Option String
deriving DecidableEq

/-- The options object of `doFetch`.  In the source `options.retries` is
created on first use (`if(!options.retries){options.retries = 0}`), so it is
modelled as a `Nat` that defaults to `0`. -/
structure FetchOptions where
  headers : Option (List (String × String)) := none
  retries : Nat := 0
deriving DecidableEq

/-- The full observable state of a run: the connector instance, the remaining
transport script, and the traces of emitted `token` events, dispatched
requests, credential-initializer invocations, `refreshAccessToken`
invocations, and `console.error` lines. -/
structure World where
  conn : Conn
  script : List FetchOutcome
  events : List JsonBody
  fetchLog : List FetchRec
  initCalls : Nat
  refreshCalls : Nat
  errlog : List String
deriving DecidableEq

/-- A fresh run state: a connector plus a transport script, with empty
traces. -/
def initWorld (conn : Conn) (script : List FetchOutcome) : World :=
  { conn := conn
    script := script
    events := []
    fetchLog := []
    initCalls := 0
    refreshCalls := 0
    errlog := [] }

/-- The default headers assembled by `doFetch` (src/index.js lines 229-235). -/
def defaultHeaders : List (String × String) :=
  [("Content-Type", "application/json"),
   ("User-Agent", "Apigrate NodeJS Connector/1.0.0")]

/-- `TDAConnector.handleNotOk` (src/index.js lines 306-329): 3xx falls
through returning the parsed body; 401/403 throw `ApiAuthError` carrying the
serialized body; all other 4xx and all 5xx return the parsed body; remaining
statuses hit `throw err` where `err` is unbound (a ReferenceError). -/
def handleNotOk (response : Response) : Except JsErr JsonBody :=
  if 300 ≤ response.status ∧ response.status < 400 then
    .ok response.body
  else if 400 ≤ response.status ∧ response.status < 500 then
    if response.status = 401 ∨ response.status = 403 then
      .error (.apiAuth response.body.raw)
    else
      .ok response.body
  else if 500 ≤ response.status then
    .ok response.body
  else
    .error (.refError "err is not defined")

/-- The response dispatch of `doFetch` (src/index.js lines 269-277):
`response.ok` (2xx) yields the parsed body, everything else goes through
`handleNotOk`. -/
def classifyResponse (r : Response) : Except JsErr JsonBody :=
  if 200 ≤ r.status ∧ r.status < 300 then .ok r.body else handleNotOk r

/-- The lazy credential bootstrap at the top of `doFetch` (src/index.js lines
217-221): when no access token is held and an initializer was supplied, the
initializer is invoked and any truthy `access_token`/`refresh_token` of its
result is adopted.  A null/undefined result makes the field read
`creds.access_token` raise a TypeError. -/
def bootstrapCreds (w : World) : World × Option JsErr :=
  match truthy w.conn.access_token, w.conn.credentialInitializer with
  | false, some credsResult =>
    let w1 := { w with initCalls := w.initCalls + 1 }
    match credsResult with
    | none => (w1, some (.typeError "Cannot read access_token of undefined"))
    | some creds =>
      ({ w1 with conn := { w1.conn with
          access_token := if truthy creds.access_token
            then creds.access_token else w1.conn.access_token
          refresh_token := if truthy creds.refresh_token
            then creds.refresh_token else w1.conn.refresh_token } }, none)
  | _, _ => (w, none)

/-- The token endpoint URL used by both grant exchanges. -/
def oauthTokenUrl : String := "https://api.tdameritrade.com/v1/oauth2/token"

/-- The explicit headers option both token exchanges pass to `doFetch`. -/
def formHeaders : List (String × String) :=
  [("Content-Type", "application/x-www-form-urlencoded")]

/-- The form-encoded body of the refresh-token grant (src/index.js lines
178-180). -/
def refreshPayload (conn : Conn) (refresh_token : Option String) : String :=
  "grant_type=refresh_token&refresh_token=" ++
    encodeURIComponent (jsToString refresh_token) ++
    "&client_id=" ++ encodeURIComponent conn.client_id ++
    "&redirect_uri=" ++ encodeURIComponent conn.redirect_uri

/-- The form-encoded body of the authorization-code grant (src/index.js lines
135-138). -/
def authCodePayload (conn : Conn) (code : String) : String :=
  "grant_type=authorization_code&refresh_token=&access_type=offline" ++
    "&code=" ++ encodeURIComponent code ++
    "&client_id=" ++ encodeURIComponent conn.client_id ++
    "&redirect_uri=" ++ encodeURIComponent conn.redirect_uri

/-- `TDAConnector.doFetch` (src/index.js lines 216-298).  The recursion is
bounded by `fuel`; every claim below supplies enough fuel for its scenario.
The call `await this.refreshAccessToken(this.refresh_token)` in the catch
block is inlined (it is literally the body of `refreshAccessToken` below, a
wrapper around a recursive `doFetch` call) so that the recursion is structural
on `fuel`. -/
def doFetch (fuel : Nat) (w : World) (method url : String)
    (query : Option (List (String × String))) (payload : Option String)
    (options : Option FetchOptions) : World × Except JsErr JsonBody :=
  match fuel with
  | 0 => (w, .error .outOfFuel)
  | fuel' + 1 =>
    match bootstrapCreds w with
    | (w, some e) => (w, .error e)
    | (w, none) =>
      let opts := options.getD {}
      let headers1 := if truthy w.conn.access_token
        then defaultHeaders ++
          [("Authorization", "Bearer " ++ jsToString w.conn.access_token)]
        else defaultHeaders
      let headers := match opts.headers with
        | some h => h
        | none => headers1
      let qstring := match query with
        | none => ""
        | some q => "?" ++ qsStringify q
      let full_url := url ++ qstring
      let body : Option String := match payload with
        | none => none
        | some p =>
          if headers.lookup "Content-Type" =
              some "application/x-www-form-urlencoded"
          then some p
          else some (jsStringifyString p)
      match w.script with
      | [] =>
        -- transport with no scripted outcome: modelled as a rejection
        let e := JsErr.netError "fetch failed"
        ({ w with errlog := w.errlog ++ [errMessage e] }, .error e)
      | outcome :: rest =>
        let w := { w with
          script := rest
          fetchLog := w.fetchLog ++ [⟨method, full_url, headers, body⟩] }
        match outcome with
        | .netErr m =>
          -- fetch rejected: not an ApiAuthError, so logged and re-raised
          let e := JsErr.netError m
          ({ w with errlog := w.errlog ++ [errMessage e] }, .error e)
        | .ok resp =>
          match classifyResponse resp with
          | .ok result => (w, .ok result)
          | .error e =>
            match e with
            | .apiAuth msg =>
              if opts.retries < 1 then
                -- await this.refreshAccessToken(this.refresh_token),
                -- inlined; the returned value is discarded by the source too
                let w1 := { w with refreshCalls := w.refreshCalls + 1 }
                let w2 :=
                  match doFetch fuel' w1 "POST" oauthTokenUrl none
                      (some (refreshPayload w1.conn w1.conn.refresh_token))
                      (some { headers := some formHeaders }) with
                  | (wr, .ok result) =>
                    { wr with
                      events := wr.events ++ [result]
                      conn := setCredentials wr.conn (some result) }
                  | (wr, .error e) =>
                    { wr with errlog := wr.errlog ++ [errMessage e] }
                doFetch fuel' w2 method url query payload
                  (some { opts with retries := opts.retries + 1 })
              else
                (w, .error (.apiAuth msg))
            | _ =>
              ({ w with errlog := w.errlog ++ [errMessage e] }, .error e)

/-- `TDAConnector.refreshAccessToken` (src/index.js lines 176-203): POST the
refresh grant through `doFetch`; on success emit the `token` event, store the
credentials and return the body; on any raised error, log it and resolve to
undefined (`none`). -/
def refreshAccessToken (fuel : Nat) (w : World) (refresh_token : Option String) :
    World × Option JsonBody :=
  let w1 := { w with refreshCalls := w.refreshCalls + 1 }
  match doFetch fuel w1 "POST" oauthTokenUrl none
      (some (refreshPayload w1.conn refresh_token))
      (some { headers := some formHeaders }) with
  | (wr, .ok result) =>
    ({ wr with
        events := wr.events ++ [result]
        conn := setCredentials wr.conn (some result) }, some result)
  | (wr, .error e) =>
    ({ wr with errlog := wr.errlog ++ [errMessage e] }, none)

/-- `TDAConnector.getAccessToken` (src/index.js lines 133-161): POST the
authorization-code grant through `doFetch`; on success emit the `token` event,
store the credentials and return the body; on any raised error, log it and
resolve to undefined (`none`). -/
def getAccessToken (fuel : Nat) (w : World) (code : String) :
    World × Option JsonBody :=
  match doFetch fuel w "POST" oauthTokenUrl none
      (some (authCodePayload w.conn code))
      (some { headers := some formHeaders }) with
  | (wr, .ok result) =>
    ({ wr with
        events := wr.events ++ [result]
        conn := setCredentials wr.conn (some result) }, some result)
  | (wr, .error e) =>
    ({ wr with errlog := wr.errlog ++ [errMessage e] }, none)

/-- `TDAConnector.getQuote` (src/index.js lines 68-70), a representative
domain call. -/
def getQuote (fuel : Nat) (w : World) (symbol : String) :
    World × Except JsErr JsonBody :=
  doFetch fuel w "GET"
    (w.conn.base_url ++ "/marketdata/" ++ symbol ++ "/quotes") none none none

/-- `TDAConnector.getAccounts` (src/index.js lines 44-46), a second domain
call. -/
def getAccounts (fuel : Nat) (w : World)
    (parameters : Option (List (String × String))) :
    World × Except JsErr JsonBody :=
  doFetch fuel w "GET" (w.conn.base_url ++ "/accounts") parameters none none


/-
Claim scenarios.  Each original request is run against an explicit transport
script; the traces recorded in the final `World` settle the claims.
-/

/-- A connector that already holds both tokens and has no credential
initializer: the state of a caller that set credentials up front. -/
def authedConn : Conn :=
  { mkConn "cid" "https://example.com/cb" none with
      access_token := some "atok", refresh_token := some "rtok" }

/-- A response body with falsy token fields, carrying only its serialized
form. -/
def plainBody (r : String) : JsonBody := ⟨none, none, r⟩

/-- A token-endpoint success body carrying a fresh token pair. -/
def tokenBody (r : String) : JsonBody := ⟨some "at2", some "rt2", r⟩

/-- One original request dispatched through the executor from the
already-authenticated connector, against the given transport script. -/
def runReq (script : List FetchOutcome) (method url : String)
    (query : Option (List (String × String))) (payload : Option String) :
    World × Except JsErr JsonBody :=
  doFetch 8 (initWorld authedConn script) method url query payload none

/-- Transport script for the C1 counterexample: the original request is
answered 401; the refresh POST is answered 401 as well; the two subsequent
token POSTs succeed; the retried original request succeeds. -/
def c1Script : List FetchOutcome :=
  [.ok ⟨401, plainBody "e1"⟩, .ok ⟨401, plainBody "e2"⟩,
   .ok ⟨200, tokenBody "t1"⟩, .ok ⟨200, tokenBody "t2"⟩,
   .ok ⟨200, plainBody "res"⟩]

/-- C1 counterexample: a single original request whose refresh POST is itself
answered 401 causes TWO `refreshAccessToken` invocations (and five transport
dispatches), refuting the claim that at most one refresh attempt occurs per
original request regardless of the 401/403 answers the refresh POST itself
receives.  The nested executor call made for the refresh POST starts with a
fresh `options.retries` counter, so its own 401 triggers a further refresh. -/
theorem c1_counterexample :
    (runReq c1Script "GET"
        "https://api.tdameritrade.com/v1/marketdata/XYZ/quotes"
        none none).1.refreshCalls = 2 ∧
    (runReq c1Script "GET"
        "https://api.tdameritrade.com/v1/marketdata/XYZ/quotes"
        none none).2 = .ok (plainBody "res") ∧
    (runReq c1Script "GET"
        "https://api.tdameritrade.com/v1/marketdata/XYZ/quotes"
        none none).1.fetchLog.length = 5 :=
  ⟨rfl, rfl, rfl⟩

/-- Script in which the refresh POST triggered by an auth failure of status
`s` succeeds with 200. -/
def c1ScriptRefreshOk (s : Nat) (e t res : String) : List FetchOutcome :=
  [.ok ⟨s, plainBody e⟩, .ok ⟨200, tokenBody t⟩, .ok ⟨200, plainBody res⟩]

/-- Script in which the refresh POST triggered by an auth failure of status
`s` is answered with a non-auth client error (400). -/
def c1ScriptRefresh400 (s : Nat) (e t res : String) : List FetchOutcome :=
  [.ok ⟨s, plainBody e⟩, .ok ⟨400, plainBody t⟩, .ok ⟨200, plainBody res⟩]

/-- C1 (amended): as long as the refresh POST itself is not answered 401/403,
exactly one refresh attempt occurs per original request — both when the
refresh succeeds (200) and when it fails with a non-auth status (400); the
original request is still retried and its retried result returned. -/
theorem c1_amended_single_refresh (s : Nat) (h : s = 401 ∨ s = 403)
    (e t res u : String) :
    ((runReq (c1ScriptRefreshOk s e t res) "GET" u none none).1.refreshCalls = 1 ∧
     (runReq (c1ScriptRefreshOk s e t res) "GET" u none none).2 = .ok (plainBody res)) ∧
    ((runReq (c1ScriptRefresh400 s e t res) "GET" u none none).1.refreshCalls = 1 ∧
     (runReq (c1ScriptRefresh400 s e t res) "GET" u none none).2 = .ok (plainBody res)) := by
  rcases h with rfl | rfl <;> exact ⟨⟨rfl, rfl⟩, ⟨rfl, rfl⟩⟩

/-- C1 (amended) witness at status 401 and concrete strings. -/
theorem c1_amended_single_refresh_witness :
    (401 = 401 ∨ 401 = 403) ∧
    (((runReq (c1ScriptRefreshOk 401 "e" "t" "r") "GET" "u" none none).1.refreshCalls = 1 ∧
      (runReq (c1ScriptRefreshOk 401 "e" "t" "r") "GET" "u" none none).2 = .ok (plainBody "r")) ∧
     ((runReq (c1ScriptRefresh400 401 "e" "t" "r") "GET" "u" none none).1.refreshCalls = 1 ∧
      (runReq (c1ScriptRefresh400 401 "e" "t" "r") "GET" "u" none none).2 = .ok (plainBody "r"))) :=
  ⟨Or.inl rfl, c1_amended_single_refresh 401 (Or.inl rfl) "e" "t" "r" "u"⟩

/-- Script for C2: auth failure of status `s1`, successful refresh, auth
failure of status `s2` on the retry, plus one extra scripted response that
must remain unconsumed. -/
def c2Script (s1 s2 : Nat) (e1 t e2 extra : String) : List FetchOutcome :=
  [.ok ⟨s1, plainBody e1⟩, .ok ⟨200, tokenBody t⟩,
   .ok ⟨s2, plainBody e2⟩, .ok ⟨200, plainBody extra⟩]

/-- C2: when the original dispatch and the single retry are both answered
401/403, the executor raises the authentication error of the retry to the
caller (carrying the serialization of the retry body), performs exactly three
dispatches (original, refresh POST, retry) and exactly one refresh, and never
consumes the next scripted response: there is no second retry. -/
theorem c2_no_second_retry (s1 s2 : Nat)
    (h1 : s1 = 401 ∨ s1 = 403) (h2 : s2 = 401 ∨ s2 = 403)
    (e1 t e2 extra m u : String) :
    (runReq (c2Script s1 s2 e1 t e2 extra) m u none none).2 = .error (.apiAuth e2) ∧
    (runReq (c2Script s1 s2 e1 t e2 extra) m u none none).1.fetchLog.length = 3 ∧
    (runReq (c2Script s1 s2 e1 t e2 extra) m u none none).1.refreshCalls = 1 ∧
    (runReq (c2Script s1 s2 e1 t e2 extra) m u none none).1.script
      = [.ok ⟨200, plainBody extra⟩] := by
  rcases h1 with rfl | rfl <;> rcases h2 with rfl | rfl <;> exact ⟨rfl, rfl, rfl, rfl⟩

/-- C2 witness at statuses 401/403 and concrete strings. -/
theorem c2_no_second_retry_witness :
    (401 = 401 ∨ 401 = 403) ∧ (403 = 401 ∨ 403 = 403) ∧
    ((runReq (c2Script 401 403 "e1" "t" "e2" "x") "GET" "u" none none).2 = .error (.apiAuth "e2") ∧
     (runReq (c2Script 401 403 "e1" "t" "e2" "x") "GET" "u" none none).1.fetchLog.length = 3 ∧
     (runReq (c2Script 401 403 "e1" "t" "e2" "x") "GET" "u" none none).1.refreshCalls = 1 ∧
     (runReq (c2Script 401 403 "e1" "t" "e2" "x") "GET" "u" none none).1.script
       = [.ok ⟨200, plainBody "x"⟩]) :=
  ⟨Or.inl rfl, Or.inr rfl,
   c2_no_second_retry 401 403 (Or.inl rfl) (Or.inr rfl) "e1" "t" "e2" "x" "GET" "u"⟩

/-- Script for C3: one auth failure, successful refresh, successful retry,
plus one extra scripted outcome that must remain unconsumed. -/
def c3Script (s : Nat) (e t res : String) : List FetchOutcome :=
  [.ok ⟨s, plainBody e⟩, .ok ⟨200, tokenBody t⟩,
   .ok ⟨200, plainBody res⟩, .netErr "unconsumed"]

/-- The C3 run: an arbitrary request (method, url, one query parameter, a
payload) whose first dispatch is answered with auth-failure status `s`. -/
def c3Run (s : Nat) (e t res m u pl qk qv : String) :
    World × Except JsErr JsonBody :=
  runReq (c3Script s e t res) m u (some [(qk, qv)]) (some pl)

/-- C3: a request answered 401/403 exactly once triggers exactly one refresh
call and exactly one retry; the retry is dispatched with the same method, the
same full url (hence the same query) and the same encoded payload as the
original dispatch, its parsed result is returned to the caller, and no
further scripted outcome is consumed. -/
theorem c3_one_refresh_one_retry (s : Nat) (h : s = 401 ∨ s = 403)
    (e t res m u pl qk qv : String) :
    (c3Run s e t res m u pl qk qv).2 = .ok (plainBody res) ∧
    (c3Run s e t res m u pl qk qv).1.refreshCalls = 1 ∧
    (c3Run s e t res m u pl qk qv).1.fetchLog.length = 3 ∧
    ((c3Run s e t res m u pl qk qv).1.fetchLog[2]?).map FetchRec.method = some m ∧
    ((c3Run s e t res m u pl qk qv).1.fetchLog[2]?).map FetchRec.url
      = ((c3Run s e t res m u pl qk qv).1.fetchLog[0]?).map FetchRec.url ∧
    ((c3Run s e t res m u pl qk qv).1.fetchLog[2]?).map FetchRec.body
      = ((c3Run s e t res m u pl qk qv).1.fetchLog[0]?).map FetchRec.body ∧
    (c3Run s e t res m u pl qk qv).1.script = [.netErr "unconsumed"] := by
  rcases h with rfl | rfl <;> exact ⟨rfl, rfl, rfl, rfl, rfl, rfl, rfl⟩

/-- C3 witness at status 403 and concrete strings. -/
theorem c3_one_refresh_one_retry_witness :
    (403 = 401 ∨ 403 = 403) ∧
    ((c3Run 403 "e" "t" "r" "PUT" "u" "p" "k" "v").2 = .ok (plainBody "r") ∧
     (c3Run 403 "e" "t" "r" "PUT" "u" "p" "k" "v").1.refreshCalls = 1 ∧
     (c3Run 403 "e" "t" "r" "PUT" "u" "p" "k" "v").1.fetchLog.length = 3 ∧
     ((c3Run 403 "e" "t" "r" "PUT" "u" "p" "k" "v").1.fetchLog[2]?).map FetchRec.method = some "PUT" ∧
     ((c3Run 403 "e" "t" "r" "PUT" "u" "p" "k" "v").1.fetchLog[2]?).map FetchRec.url
       = ((c3Run 403 "e" "t" "r" "PUT" "u" "p" "k" "v").1.fetchLog[0]?).map FetchRec.url ∧
     ((c3Run 403 "e" "t" "r" "PUT" "u" "p" "k" "v").1.fetchLog[2]?).map FetchRec.body
       = ((c3Run 403 "e" "t" "r" "PUT" "u" "p" "k" "v").1.fetchLog[0]?).map FetchRec.body ∧
     (c3Run 403 "e" "t" "r" "PUT" "u" "p" "k" "v").1.script = [.netErr "unconsumed"]) :=
  ⟨Or.inr rfl,
   c3_one_refresh_one_retry 403 (Or.inr rfl) "e" "t" "r" "PUT" "u" "p" "k" "v"⟩

/-- The response classification exactly as the specification states it, for
statuses the claim covers (every status from 200 up): 401/403 raise the
authentication error carrying the serialized body, every other such status
returns the parsed body as an ordinary result. -/
def specClassification (r : Response) : Except JsErr JsonBody :=
  if r.status = 401 ∨ r.status = 403
  then .error (.apiAuth r.body.raw)
  else .ok r.body

/-- C4: on every response with status at least 200, the dispatch
classification of `doFetch`/`handleNotOk` agrees with the classification the
specification describes: 2xx and 3xx return the parsed body, 401/403 raise
`ApiAuthError` carrying the JSON-serialized body, and every other 4xx and
every 5xx returns the parsed body as an ordinary (non-raised) result. -/
theorem c4_response_classification (r : Response) (h : 200 ≤ r.status) :
    classifyResponse r = specClassification r := by
  unfold classifyResponse handleNotOk specClassification
  split_ifs <;> first | rfl | omega

/-- C4 witness at a 404 response. -/
theorem c4_response_classification_witness :
    200 ≤ 404 ∧
    classifyResponse ⟨404, plainBody "nf"⟩ = specClassification ⟨404, plainBody "nf"⟩ :=
  ⟨by decide, c4_response_classification ⟨404, plainBody "nf"⟩ (by decide)⟩

/-- The C5 authorization-code exchange run: the token POST is rejected at the
transport level with message `m`. -/
def c5Run (m code : String) : World × Option JsonBody :=
  getAccessToken 8 (initWorld authedConn [.netErr m]) code

/-- The C5 refresh exchange run: the token POST is rejected at the transport
level with message `m`. -/
def c5RunR (m : String) (rt : Option String) : World × Option JsonBody :=
  refreshAccessToken 8 (initWorld authedConn [.netErr m]) rt

/-- C5: when the underlying HTTP call of the authorization-code exchange or
of the refresh exchange raises an error, the method swallows it: the error is
logged (once by `doFetch`, once by the catch of the exchange method), the
method resolves to an undefined result (`none`) instead of propagating, and
no `token` event is emitted. -/
theorem c5_exchange_errors_swallowed (m code : String) (rt : Option String) :
    (c5Run m code).2 = none ∧
    (c5Run m code).1.errlog = [m, m] ∧
    (c5Run m code).1.events = [] ∧
    (c5RunR m rt).2 = none ∧
    (c5RunR m rt).1.errlog = [m, m] ∧
    (c5RunR m rt).1.events = [] :=
  ⟨rfl, rfl, rfl, rfl, rfl, rfl⟩

/-- A credential-initializer result with a falsy `access_token` (only a
refresh token), for the C6 counterexample. -/
def c6NoAccessInit : Option (Option JsonBody) :=
  some (some ⟨none, some "r0", "cred"⟩)

/-- Transport script of two successful domain responses, for C6. -/
def c6ScriptOk : List FetchOutcome :=
  [.ok ⟨200, plainBody "q1"⟩, .ok ⟨200, plainBody "q2"⟩]

/-- C6 counterexample: when the initializer resolves to a credential object
without an `access_token`, a second domain call invokes it AGAIN — two calls
produce two initializer invocations, refuting the claim that the initializer
runs at most once for EVERY value it returns. -/
theorem c6_initializer_counterexample :
    ((getQuote 8 (getQuote 8
        (initWorld (mkConn "cid" "https://cb" c6NoAccessInit) c6ScriptOk)
        "XYZ").1 "XYZ").1).initCalls = 2 :=
  rfl

/-- A run state whose initializer resolves to a credential object carrying a
truthy access token, for the amended C6. -/
def c6GoodWorld (rt : Option String) (raw q1 q2 : String) : World :=
  initWorld (mkConn "cid" "https://cb" (some (some ⟨some "A", rt, raw⟩)))
    [.ok ⟨200, plainBody q1⟩, .ok ⟨200, plainBody q2⟩]

/-- C6 (amended): when the initializer resolves to a credential object whose
`access_token` is truthy, the first domain call invokes it exactly once and
adopts the token, and a second domain call does not invoke it again. -/
theorem c6_initializer_amended (rt : Option String) (raw q1 q2 sym1 sym2 : String) :
    ((getQuote 8 (c6GoodWorld rt raw q1 q2) sym1).1).initCalls = 1 ∧
    ((getQuote 8 (c6GoodWorld rt raw q1 q2) sym1).1).conn.access_token = some "A" ∧
    ((getQuote 8 (getQuote 8 (c6GoodWorld rt raw q1 q2) sym1).1 sym2).1).initCalls = 1 :=
  ⟨rfl, rfl, rfl⟩

/-- The token body returned by the C7 exchange. -/
def c7Tok (raw : String) : JsonBody := ⟨some "AT", some "RT", raw⟩

/-- The C7 run: a fresh connector performs an authorization-code exchange that
the token endpoint answers with 200 and a full token body. -/
def c7Run (cid ruri code raw : String) : World × Option JsonBody :=
  getAccessToken 8 (initWorld (mkConn cid ruri none) [.ok ⟨200, c7Tok raw⟩]) code

/-- C7: a successful authorization-code exchange returns the response body,
emits exactly one `token` event whose payload is that full body (the event is
in the trace of the state the call returns, so it was delivered before the
call returned), and stores the returned tokens into the connector state. -/
theorem c7_exchange_success (cid ruri code raw : String) :
    (c7Run cid ruri code raw).2 = some (c7Tok raw) ∧
    (c7Run cid ruri code raw).1.events = [c7Tok raw] ∧
    (c7Run cid ruri code raw).1.conn.access_token = some "AT" ∧
    (c7Run cid ruri code raw).1.conn.refresh_token = some "RT" :=
  ⟨rfl, rfl, rfl, rfl⟩

/-- C8: the partial-update invariant of `setCredentials`.  Presence of a field
is JavaScript truthiness (the source tests `if(creds.access_token)`): a truthy
field overwrites the corresponding state field, a falsy one leaves it
untouched; a falsy credentials argument changes nothing, and no other state
field is touched. -/
theorem c8_set_credentials_partial_update (conn : Conn) (creds : JsonBody) :
    (truthy creds.access_token = false →
      (setCredentials conn (some creds)).access_token = conn.access_token) ∧
    (truthy creds.access_token = true →
      (setCredentials conn (some creds)).access_token = creds.access_token) ∧
    (truthy creds.refresh_token = false →
      (setCredentials conn (some creds)).refresh_token = conn.refresh_token) ∧
    (truthy creds.refresh_token = true →
      (setCredentials conn (some creds)).refresh_token = creds.refresh_token) ∧
    setCredentials conn none = conn ∧
    (setCredentials conn (some creds)).client_id = conn.client_id := by
  refine ⟨?_, ?_, ?_, ?_, rfl, rfl⟩ <;> intro h <;> simp [setCredentials, h]

/-- A connector with a previously-set access token, for the C8 witness. -/
def c8Conn : Conn :=
  { mkConn "cid" "https://cb" none with access_token := some "keepme" }

/-- A credentials object containing only a refresh token, for the C8
witness. -/
def c8Creds : JsonBody := ⟨none, some "R", "raw"⟩

/-- C8 witness: updating with only a refresh token present leaves the old
access token unchanged and overwrites the refresh token. -/
theorem c8_set_credentials_partial_update_witness :
    truthy c8Creds.access_token = false ∧
    (setCredentials c8Conn (some c8Creds)).access_token = c8Conn.access_token ∧
    (setCredentials c8Conn (some c8Creds)).refresh_token = c8Creds.refresh_token :=
  ⟨rfl, (c8_set_credentials_partial_update c8Conn c8Creds).1 rfl,
   (c8_set_credentials_partial_update c8Conn c8Creds).2.2.2.1 rfl⟩

/-- The C9 authorization-code run: the token endpoint answers 400 with an
arbitrary error body `b`. -/
def c9Run (cid ruri code : String) (b : JsonBody) : World × Option JsonBody :=
  getAccessToken 8 (initWorld (mkConn cid ruri none) [.ok ⟨400, b⟩]) code

/-- The C9 refresh run: the token endpoint answers 400 with an arbitrary
error body `b`. -/
def c9RunR (cid ruri : String) (rt : Option String) (b : JsonBody) :
    World × Option JsonBody :=
  refreshAccessToken 8 (initWorld (mkConn cid ruri none) [.ok ⟨400, b⟩]) rt

/-- C9: when the token endpoint answers `getAccessToken` or
`refreshAccessToken` with 400 (a non-2xx status other than 401/403), the
method still emits the `token` event with the parsed error body as payload
and passes that body to `setCredentials` — at the notification interface a
failed exchange is indistinguishable from a successful one. -/
theorem c9_failed_exchange_still_notifies (cid ruri code : String)
    (rt : Option String) (b : JsonBody) :
    (c9Run cid ruri code b).2 = some b ∧
    (c9Run cid ruri code b).1.events = [b] ∧
    (c9Run cid ruri code b).1.conn = setCredentials (mkConn cid ruri none) (some b) ∧
    (c9RunR cid ruri rt b).2 = some b ∧
    (c9RunR cid ruri rt b).1.events = [b] ∧
    (c9RunR cid ruri rt b).1.conn = setCredentials (mkConn cid ruri none) (some b) :=
  ⟨rfl, rfl, rfl, rfl, rfl, rfl⟩

/-- A run state whose connector holds no tokens and whose initializer
resolves to null/undefined, for C10. -/
def c10World (script : List FetchOutcome) : World :=
  initWorld (mkConn "cid" "https://cb" (some none)) script

/-- C10: when the connector holds no access token and the initializer
resolves to null/undefined, every domain call raises the TypeError produced
by reading `access_token` off that result — the initializer is invoked, no
request is dispatched, and the raised error is a TypeError rather than an
`ApiAuthError` or a plain unauthenticated request. -/
theorem c10_null_initializer_type_error (fuel : Nat)
    (script : List FetchOutcome) (sym : String)
    (params : Option (List (String × String))) :
    (getQuote (fuel + 1) (c10World script) sym).2
      = .error (.typeError "Cannot read access_token of undefined") ∧
    (getQuote (fuel + 1) (c10World script) sym).1.fetchLog = [] ∧
    (getQuote (fuel + 1) (c10World script) sym).1.initCalls = 1 ∧
    (getAccounts (fuel + 1) (c10World script) params).2
      = .error (.typeError "Cannot read access_token of undefined") :=
  ⟨rfl, rfl, rfl, rfl⟩
